import Mathlib

set_option autoImplicit false

/-!
Shallow embedding of the cluster-record handler of the kismatic server
(pkg/server/http/handler/clusters.go) together with the store and plan
shapes it manipulates.  Go strings become `String`, Go `int` becomes `Int`,
Go pointers become `Option`, and the fallible plan builder returns `Except`.
The handler functions are modelled as pure state transformers over an
association-list store, mirroring the map-backed store used by the code.
-/

namespace Kismatic

namespace Install

/-- Shape of install.NodeGroup as used by the handler (etcd and worker groups). -/
structure NodeGroup where
  ExpectedCount : Int

/-- Shape of install.MasterNodeGroup as used by the handler. -/
structure MasterNodeGroup where
  ExpectedCount : Int
  LoadBalancedFQDN : String

/-- Shape of install.OptionalNodeGroup as used by the handler (ingress group). -/
structure OptionalNodeGroup where
  ExpectedCount : Int

/-- Shape of install.Cluster as used by the handler: only the name is touched. -/
structure Cluster where
  Name : String

/-- Modelled from the spec: install.AWSProvisionerOptions, the non-secret
provider-options substructure of the Plan (its source file is not under src/;
the spec calls it ProviderOptions and states it carries no secret material). -/
structure AWSProvisionerOptions where
  Region : String

/-- Shape of install.Provisioner as used by the handler. -/
structure Provisioner where
  Provider : String
  AWSOptions : Option AWSProvisionerOptions

/-- Shape of install.Plan as used by the handler. -/
structure Plan where
  Cluster : Cluster
  Etcd : NodeGroup
  Master : MasterNodeGroup
  Worker : NodeGroup
  Ingress : OptionalNodeGroup
  Provisioner : Provisioner

/-- Shape of install.PlanTemplateOptions built by buildStoreCluster. -/
structure PlanTemplateOptions where
  EtcdNodes : Int
  MasterNodes : Int
  WorkerNodes : Int
  IngressNodes : Int

/-- Modelled from the spec: install.WritePlanTemplate followed by
BytesPlanner.Read (the Plan Builder, whose source is not under src/).  Per the
spec it expands a parameterized template keyed by the requested group sizes
into per-group placeholder inventories, so the resulting plan carries the
requested expected counts and default (empty) identity and provisioner
fields, which the handler then overlays. -/
def writePlanTemplate (o : PlanTemplateOptions) : Plan :=
  { Cluster := { Name := "" }
    Etcd := { ExpectedCount := o.EtcdNodes }
    Master := { ExpectedCount := o.MasterNodes, LoadBalancedFQDN := "" }
    Worker := { ExpectedCount := o.WorkerNodes }
    Ingress := { ExpectedCount := o.IngressNodes }
    Provisioner := { Provider := "", AWSOptions := none } }

end Install

namespace Store

/-- Shape of store.AWSCredentials as used by the handler. -/
structure AWSCredentials where
  AccessKeyId : String
  SecretAccessKey : String

/-- Shape of store.ProvisionerCredentials as used by the handler. -/
structure ProvisionerCredentials where
  AWS : AWSCredentials

/-- Go zero value of store.ProvisionerCredentials: all fields empty. -/
def ProvisionerCredentials.empty : ProvisionerCredentials :=
  { AWS := { AccessKeyId := "", SecretAccessKey := "" } }

/-- Shape of store.Cluster as used by the handler. -/
structure Cluster where
  DesiredState : String
  CurrentState : String
  CanContinue : Bool
  Plan : Install.Plan
  ProvisionerCredentials : ProvisionerCredentials

end Store

/-- handler.AWSProvisionerOptions: embeds install.AWSProvisionerOptions and
adds the two credential fields received in requests. -/
structure AWSProvisionerOptions where
  AWSProvisionerOptions : Install.AWSProvisionerOptions
  AccessKeyID : String
  SecretAccessKey : String

/-- handler.Provisioner: provider name plus optional AWS options. -/
structure Provisioner where
  Provider : String
  AWSOptions : Option AWSProvisionerOptions

/-- handler.ClusterRequest. -/
structure ClusterRequest where
  Name : String
  DesiredState : String
  ClusterIP : String
  EtcdCount : Int
  MasterCount : Int
  WorkerCount : Int
  IngressCount : Int
  Provisioner : Provisioner

/-- handler.ClusterResponse. -/
structure ClusterResponse where
  Name : String
  DesiredState : String
  CurrentState : String
  ClusterIP : String
  EtcdCount : Int
  MasterCount : Int
  WorkerCount : Int
  IngressCount : Int
  Provisioner : Provisioner

/-- var validStates = []string{"installed"} -/
def validStates : List String := ["installed"]

/-- var validProvisionerProviders = []string{"aws"} -/
def validProvisionerProviders : List String := ["aws"]

/-- validator.valid(): fail with the collected errors when any were added,
succeed with a nil error list otherwise. -/
def validatorValid (errs : List String) : Bool × List String :=
  if errs.length > 0 then (false, errs) else (true, [])

/-- The error list accumulated by Provisioner.validate via addError.  The
Go condition p.AWSOptions == nil or field == "" is rendered as the default
of the mapped optional field being empty. -/
def Provisioner.validateErrs (p : Provisioner) : List String :=
  if p.Provider = "" then ["provisioner.provider cannot be empty"]
  else
    (if p.Provider ∈ validProvisionerProviders then []
     else [p.Provider ++ " is not a valid provisioner.provider, options are: [aws]"])
    ++ (if p.Provider = "aws" then
          (if (p.AWSOptions.map fun o => o.AccessKeyID).getD "" = "" then
            ["provisioner.options.accessKeyID cannot be empty"] else [])
          ++ (if (p.AWSOptions.map fun o => o.SecretAccessKey).getD "" = "" then
            ["provisioner.options.secretAccessKey cannot be empty"] else [])
        else [])

/-- func (p *Provisioner) validate() (bool, []error) -/
def Provisioner.validate (p : Provisioner) : Bool × List String :=
  validatorValid p.validateErrs

/-- The error list accumulated by ClusterRequest.validate via addError; the
recursive v.validate(&r.Provisioner) contributes exactly the provisioner
error list. -/
def ClusterRequest.validateErrs (r : ClusterRequest) : List String :=
  (if r.Name = "" then ["name cannot be empty"] else [])
  ++ (if r.DesiredState = "" then ["desiredState cannot be empty"]
      else if r.DesiredState ∈ validStates then []
      else [r.DesiredState ++ " is not a valid desiredState, options are: [installed]"])
  ++ (if r.EtcdCount ≤ 0 then ["cluster.etcdCount must be greater than 0"] else [])
  ++ (if r.MasterCount ≤ 0 then ["cluster.masterCount must be greater than 0"] else [])
  ++ (if r.WorkerCount ≤ 0 then ["cluster.workerCount must be greater than 0"] else [])
  ++ (if r.IngressCount < 0 then ["cluster.ingressCount must be greater than or equal to 0"] else [])
  ++ (r.Provisioner.validate).snd

/-- func (r *ClusterRequest) validate() (bool, []error) -/
def ClusterRequest.validate (r : ClusterRequest) : Bool × List String :=
  validatorValid r.validateErrs

/-- func buildStoreCluster(req *ClusterRequest) (*store.Cluster, error):
expand the plan template from the requested counts, overlay the cluster name
and provisioner selection on the plan, and attach the credentials (for the
aws provider, when options were supplied) as a separate structure.  The Go
switch assigns credentials only in the aws case with non-nil options,
leaving the zero value otherwise. -/
def buildStoreCluster (req : ClusterRequest) : Except String Store.Cluster :=
  let planTemplate : Install.PlanTemplateOptions :=
    { EtcdNodes := req.EtcdCount
      MasterNodes := req.MasterCount
      WorkerNodes := req.WorkerCount
      IngressNodes := req.IngressCount }
  let p0 := Install.writePlanTemplate planTemplate
  let p : Install.Plan :=
    { p0 with
      Cluster := { p0.Cluster with Name := req.Name }
      Provisioner :=
        { Provider := req.Provisioner.Provider
          AWSOptions := req.Provisioner.AWSOptions.map fun o => o.AWSProvisionerOptions } }
  let creds : Store.ProvisionerCredentials :=
    if p.Provisioner.Provider = "aws" then
      match req.Provisioner.AWSOptions with
      | some o =>
        { AWS := { AccessKeyId := o.AccessKeyID, SecretAccessKey := o.SecretAccessKey } }
      | none => Store.ProvisionerCredentials.empty
    else Store.ProvisionerCredentials.empty
  .ok
    { DesiredState := req.DesiredState
      CurrentState := "planned"
      Plan := p
      CanContinue := true
      ProvisionerCredentials := creds }

/-- func buildResponse(name string, sc store.Cluster) ClusterResponse: the
response echoes the plan fields and the provider identity; for the aws
provider it copies only the embedded install options, leaving the two
credential fields at their zero value. -/
def buildResponse (name : String) (sc : Store.Cluster) : ClusterResponse :=
  { Name := name
    DesiredState := sc.DesiredState
    CurrentState := sc.CurrentState
    ClusterIP := sc.Plan.Master.LoadBalancedFQDN
    EtcdCount := sc.Plan.Etcd.ExpectedCount
    MasterCount := sc.Plan.Master.ExpectedCount
    WorkerCount := sc.Plan.Worker.ExpectedCount
    IngressCount := sc.Plan.Ingress.ExpectedCount
    Provisioner :=
      { Provider := sc.Plan.Provisioner.Provider
        AWSOptions :=
          if sc.Plan.Provisioner.Provider = "aws" then
            match sc.Plan.Provisioner.AWSOptions with
            | some o =>
              some { AWSProvisionerOptions := o, AccessKeyID := "", SecretAccessKey := "" }
            | none => none
          else none } }

/-- The store backing the handlers: a name-keyed association of cluster
records, modelling the map-backed store.ClusterStore. -/
abbrev StoreMap := List (String × Store.Cluster)

/-- ClusterStore.Get semantics: the record under the name, absent as a normal
result (Go returns nil, nil for a missing key). -/
def storeGet (s : StoreMap) (name : String) : Option Store.Cluster :=
  match s with
  | [] => none
  | (k, c) :: rest => if k = name then some c else storeGet rest name

/-- ClusterStore.Put semantics: unconditional overwrite of the record under
the name, inserting it when absent. -/
def storePut (s : StoreMap) (name : String) (c : Store.Cluster) : StoreMap :=
  match s with
  | [] => [(name, c)]
  | (k, c0) :: rest =>
    if k = name then (name, c) :: rest else (k, c0) :: storePut rest name c

/-- Outcome of the Create handler, mirroring the status codes it writes. -/
inductive CreateResult where
  | badRequest (errs : List String)
  | conflict
  | serverError
  | accepted
  deriving DecidableEq

/-- Outcome of the Delete handler, mirroring the status codes it writes. -/
inductive DeleteResult where
  | notFound
  | accepted
  deriving DecidableEq

namespace Clusters

/-- func (api Clusters) Create: validate, check name uniqueness via
existsInStore, build the store record, and Put it; every failure path
returns before the Put. -/
def Create (req : ClusterRequest) (s : StoreMap) : CreateResult × StoreMap :=
  match req.validate with
  | (false, errs) => (.badRequest errs, s)
  | (true, _) =>
    if (storeGet s req.Name).isSome then (.conflict, s)
    else
      match buildStoreCluster req with
      | .error _ => (.serverError, s)
      | .ok sc => (.accepted, storePut s req.Name sc)

/-- func (api Clusters) Get: fetch the record and build its response; a
missing record is a 404 (modelled as none). -/
def Get (id : String) (s : StoreMap) : Option ClusterResponse :=
  (storeGet s id).map (buildResponse id)

/-- func (api Clusters) Delete: fetch the record (404 when absent), set
DesiredState to destroyed, set CanContinue, and Put it back under the same
name; the record is never removed from the store. -/
def Delete (id : String) (s : StoreMap) : DeleteResult × StoreMap :=
  match storeGet s id with
  | none => (.notFound, s)
  | some c =>
    (.accepted, storePut s id { c with DesiredState := "destroyed", CanContinue := true })

end Clusters

/-- func getAllFromStore(cs store.ClusterStore): the backend call either
fails (Except.error), returns a nil map (none), or returns a map; a nil map
is replaced by a fresh empty one. -/
def getAllFromStore (backend : Except String (Option StoreMap)) : Except String StoreMap :=
  match backend with
  | .error e => .error ("could not get from the store: " ++ e)
  | .ok none => .ok []
  | .ok (some m) => .ok m

/-- func (api Clusters) GetAll: fetch everything and build one response per
stored record; the response collection is allocated even when empty. -/
def Clusters.GetAll (backend : Except String (Option StoreMap)) :
    Except String (List ClusterResponse) :=
  match getAllFromStore backend with
  | .error e => .error e
  | .ok m => .ok (m.map fun kv => buildResponse kv.fst kv.snd)

/-- handler.clusterPatch as used by the update tests: the addressed path id,
the incoming request, and the record currently in the store. -/
structure clusterPatch where
  id : String
  request : ClusterRequest
  inStore : Store.Cluster

/-- Modelled from the spec: clusterPatch.validate (the Update handler and
this method are not under src/; only their tests and callers are).  Per the
spec, validatePatch applies every create-level rule and additionally requires
the path id to equal the request name, the request name to equal the stored
cluster name (renames rejected), and the request etcd count to equal the
stored etcd count (quorum size immutable), aggregating all violations. -/
def clusterPatch.validateErrs (cp : clusterPatch) : List String :=
  (cp.request.validate).snd
  ++ (if cp.id = cp.request.Name then [] else ["path id must equal the request name"])
  ++ (if cp.request.Name = cp.inStore.Plan.Cluster.Name then []
      else ["cluster cannot be renamed"])
  ++ (if cp.request.EtcdCount = cp.inStore.Plan.Etcd.ExpectedCount then []
      else ["etcdCount cannot be changed"])

/-- Modelled from the spec: the pass/fail result of clusterPatch.validate,
failing exactly when any create-level or patch-level rule is violated. -/
def clusterPatch.validate (cp : clusterPatch) : Bool × List String :=
  validatorValid cp.validateErrs

/-! ## Helper lemmas about the validator and the store -/

theorem validatorValid_snd (l : List String) : (validatorValid l).snd = l := by
  cases l <;> simp [validatorValid]

theorem validatorValid_fst_true_iff (l : List String) :
    (validatorValid l).fst = true ↔ l = [] := by
  cases l <;> simp [validatorValid]

theorem validatorValid_fst_false_iff (l : List String) :
    (validatorValid l).fst = false ↔ l ≠ [] := by
  cases l <;> simp [validatorValid]

theorem requestValidate_snd (r : ClusterRequest) :
    (r.validate).snd = r.validateErrs := by
  rw [ClusterRequest.validate, validatorValid_snd]

theorem provisionerValidate_snd (p : Provisioner) :
    (p.validate).snd = p.validateErrs := by
  rw [Provisioner.validate, validatorValid_snd]

theorem storeGet_storePut_self (s : StoreMap) (name : String) (c : Store.Cluster) :
    storeGet (storePut s name c) name = some c := by
  induction s with
  | nil => simp [storePut, storeGet]
  | cons kv rest ih =>
    obtain ⟨k, c0⟩ := kv
    by_cases h : k = name
    · simp [storePut, storeGet, h]
    · simp [storePut, storeGet, h, ih]

theorem storeGet_storePut_other (s : StoreMap) (name m : String) (c : Store.Cluster)
    (h : m ≠ name) : storeGet (storePut s name c) m = storeGet s m := by
  induction s with
  | nil => simp [storePut, storeGet, Ne.symm h]
  | cons kv rest ih =>
    obtain ⟨k, c0⟩ := kv
    by_cases hk : k = name
    · subst hk
      simp [storePut, storeGet, Ne.symm h]
    · by_cases hm : k = m <;> simp [storePut, storeGet, hk, hm, ih, h]

/-! ## Concrete evaluation points -/

/-- A fully valid create request (the round-trip request of the tests). -/
def sampleValidRequest : ClusterRequest :=
  { Name := "foo", DesiredState := "installed", ClusterIP := ""
    EtcdCount := 3, MasterCount := 2, WorkerCount := 5, IngressCount := 2
    Provisioner :=
      { Provider := "aws"
        AWSOptions := some
          { AWSProvisionerOptions := { Region := "us-east-1" }
            AccessKeyID := "ACCESS_ID", SecretAccessKey := "SECRET" } } }

/-- A request violating several rules at once: empty name, non-positive
worker count, and an empty AWS access key. -/
def sampleMultiViolationRequest : ClusterRequest :=
  { Name := "", DesiredState := "installed", ClusterIP := ""
    EtcdCount := 3, MasterCount := 2, WorkerCount := 0, IngressCount := 2
    Provisioner :=
      { Provider := "aws"
        AWSOptions := some
          { AWSProvisionerOptions := { Region := "us-east-1" }
            AccessKeyID := "", SecretAccessKey := "SECRET" } } }

/-- A stored cluster record used as a concrete evaluation point. -/
def sampleStoreCluster : Store.Cluster :=
  { DesiredState := "installed", CurrentState := "installed", CanContinue := false
    Plan :=
      Install.writePlanTemplate
        { EtcdNodes := 3, MasterNodes := 2, WorkerNodes := 5, IngressNodes := 2 }
    ProvisionerCredentials := { AWS := { AccessKeyId := "A", SecretAccessKey := "S" } } }

/-- A stored record whose plan selects the aws provider and carries install
options, with secret material in its credentials. -/
def sampleAwsStoreCluster : Store.Cluster :=
  { DesiredState := "installed", CurrentState := "planned", CanContinue := true
    Plan :=
      { Cluster := { Name := "foo" }
        Etcd := { ExpectedCount := 3 }
        Master := { ExpectedCount := 2, LoadBalancedFQDN := "" }
        Worker := { ExpectedCount := 5 }
        Ingress := { ExpectedCount := 2 }
        Provisioner :=
          { Provider := "aws", AWSOptions := some { Region := "us-east-1" } } }
    ProvisionerCredentials := { AWS := { AccessKeyId := "A", SecretAccessKey := "S" } } }

/-! ## Claim theorems -/

/-- C9: when the provider is non-empty but not in the known provider set,
provisioner validation reports only the invalid-provider violation: the
per-provider credential checks are skipped, so no credential-emptiness
errors appear even when the options are absent or empty. -/
theorem invalid_provider_skips_credential_checks (p : Provisioner)
    (h1 : ¬ p.Provider = "") (h2 : ¬ p.Provider ∈ validProvisionerProviders) :
    p.validate =
      (false, [p.Provider ++ " is not a valid provisioner.provider, options are: [aws]"]) := by
  have hne : ¬ p.Provider = "aws" := fun h => h2 (by simp [validProvisionerProviders, h])
  have herrs : p.validateErrs =
      [p.Provider ++ " is not a valid provisioner.provider, options are: [aws]"] := by
    unfold Provisioner.validateErrs
    rw [if_neg h1, if_neg h2, if_neg hne]
    simp
  rw [Provisioner.validate, herrs]
  rfl

theorem invalid_provider_skips_credential_checks_witness :
    Provisioner.validate { Provider := "foobar", AWSOptions := none } =
      (false, ["foobar is not a valid provisioner.provider, options are: [aws]"]) :=
  invalid_provider_skips_credential_checks _ (by decide) (by decide)

/-- C8: GetAll on an empty store, including a backend returning an absent
mapping, yields an empty collection and no error; an error is produced
exactly when the backend call fails. -/
theorem getAll_empty_store :
    (Clusters.GetAll (.ok none) = .ok [] ∧ Clusters.GetAll (.ok (some [])) = .ok []) ∧
    ∀ b : Except String (Option StoreMap),
      (∃ e, Clusters.GetAll b = .error e) ↔ (∃ e, b = .error e) := by
  refine ⟨⟨rfl, rfl⟩, ?_⟩
  intro b
  rcases b with e | m
  · simp [Clusters.GetAll, getAllFromStore]
  · rcases m with _ | l <;> simp [Clusters.GetAll, getAllFromStore]

theorem getAll_empty_store_witness :
    Clusters.GetAll (.ok none) = .ok [] ∧
    ∃ e, Clusters.GetAll (.error "boom") = .error e :=
  ⟨getAll_empty_store.1.1, (getAll_empty_store.2 (.error "boom")).mpr ⟨"boom", rfl⟩⟩

/-- C10: Create writes nothing on any error outcome: whenever the result is
not accepted (validation failure, name conflict, or build failure), the
store is returned exactly as it was before the call. -/
theorem create_atomic_on_error (req : ClusterRequest) (s : StoreMap)
    (h : (Clusters.Create req s).fst ≠ CreateResult.accepted) :
    (Clusters.Create req s).snd = s := by
  unfold Clusters.Create at h ⊢
  split
  · rfl
  · next heq =>
    by_cases he : (storeGet s req.Name).isSome = true
    · rw [if_pos he]
    · rw [if_neg he]
      exfalso
      apply h
      rw [heq, if_neg he]
      rfl

theorem create_atomic_on_error_witness :
    (Clusters.Create sampleMultiViolationRequest []).snd = [] :=
  create_atomic_on_error sampleMultiViolationRequest [] (by decide)

/-- C4: the logical Delete keeps the record: on a present name it sets
DesiredState to destroyed and raises the continuation gate, leaving every
other field and every other record untouched; on an absent name it reports
not-found and returns the store unchanged. -/
theorem delete_is_logical (id : String) (s : StoreMap) :
    (storeGet s id = none → Clusters.Delete id s = (.notFound, s)) ∧
    ∀ c, storeGet s id = some c →
      (Clusters.Delete id s).fst = .accepted ∧
      storeGet (Clusters.Delete id s).snd id =
        some { c with DesiredState := "destroyed", CanContinue := true } ∧
      ∀ m, m ≠ id → storeGet (Clusters.Delete id s).snd m = storeGet s m := by
  constructor
  · intro h
    unfold Clusters.Delete
    rw [h]
  · intro c h
    unfold Clusters.Delete
    rw [h]
    exact ⟨rfl, storeGet_storePut_self s id _, fun m hm => storeGet_storePut_other s id m _ hm⟩

theorem delete_is_logical_witness :
    Clusters.Delete "bar" [("foo", sampleStoreCluster)] =
      (.notFound, [("foo", sampleStoreCluster)]) ∧
    (Clusters.Delete "foo" [("foo", sampleStoreCluster)]).fst = .accepted ∧
    storeGet (Clusters.Delete "foo" [("foo", sampleStoreCluster)]).snd "foo" =
      some { sampleStoreCluster with DesiredState := "destroyed", CanContinue := true } ∧
    storeGet (Clusters.Delete "foo" [("foo", sampleStoreCluster)]).snd "baz" =
      storeGet [("foo", sampleStoreCluster)] "baz" := by
  refine ⟨(delete_is_logical "bar" [("foo", sampleStoreCluster)]).1 rfl, ?_, ?_, ?_⟩
  · exact ((delete_is_logical "foo" [("foo", sampleStoreCluster)]).2 sampleStoreCluster rfl).1
  · exact ((delete_is_logical "foo" [("foo", sampleStoreCluster)]).2 sampleStoreCluster rfl).2.1
  · exact ((delete_is_logical "foo" [("foo", sampleStoreCluster)]).2 sampleStoreCluster rfl).2.2
      "baz" (by decide)

/-- C2: the response built for a stored record carries no raw credential
material: whenever the response holds AWS options, both credential fields
are empty, and changing only the ProvisionerCredentials of a stored record
leaves the built response identical. -/
theorem buildResponse_no_credentials (name : String) (sc : Store.Cluster)
    (creds : Store.ProvisionerCredentials) :
    (∀ o, (buildResponse name sc).Provisioner.AWSOptions = some o →
      o.AccessKeyID = "" ∧ o.SecretAccessKey = "") ∧
    buildResponse name { sc with ProvisionerCredentials := creds } =
      buildResponse name sc := by
  constructor
  · intro o h
    simp only [buildResponse] at h
    by_cases hp : sc.Plan.Provisioner.Provider = "aws"
    · rw [if_pos hp] at h
      cases hop : sc.Plan.Provisioner.AWSOptions with
      | none => rw [hop] at h; cases h
      | some o0 =>
        rw [hop] at h
        injection h with h2
        subst h2
        exact ⟨rfl, rfl⟩
    · rw [if_neg hp] at h
      cases h
  · rfl

theorem buildResponse_no_credentials_witness :
    ((buildResponse "foo" sampleAwsStoreCluster).Provisioner.AWSOptions.map
      fun o => (o.AccessKeyID, o.SecretAccessKey)) = some ("", "") ∧
    buildResponse "foo"
        { sampleAwsStoreCluster with
          ProvisionerCredentials :=
            { AWS := { AccessKeyId := "OTHER", SecretAccessKey := "OTHER" } } } =
      buildResponse "foo" sampleAwsStoreCluster := by
  constructor
  · rfl
  · exact (buildResponse_no_credentials "foo" sampleAwsStoreCluster
      { AWS := { AccessKeyId := "OTHER", SecretAccessKey := "OTHER" } }).2

/-- C5: create-request validation never short-circuits: for every request,
every violated rule deposits its violation in the returned error list, so a
request breaking several rules at once yields all of their violations in one
pass. -/
theorem validate_collects_all_violations (r : ClusterRequest) :
    (r.Name = "" → "name cannot be empty" ∈ (r.validate).snd) ∧
    (r.DesiredState = "" → "desiredState cannot be empty" ∈ (r.validate).snd) ∧
    (¬ r.DesiredState = "" → ¬ r.DesiredState ∈ validStates →
      (r.DesiredState ++ " is not a valid desiredState, options are: [installed]")
        ∈ (r.validate).snd) ∧
    (r.EtcdCount ≤ 0 → "cluster.etcdCount must be greater than 0" ∈ (r.validate).snd) ∧
    (r.MasterCount ≤ 0 → "cluster.masterCount must be greater than 0" ∈ (r.validate).snd) ∧
    (r.WorkerCount ≤ 0 → "cluster.workerCount must be greater than 0" ∈ (r.validate).snd) ∧
    (r.IngressCount < 0 →
      "cluster.ingressCount must be greater than or equal to 0" ∈ (r.validate).snd) ∧
    (r.Provisioner.Provider = "" →
      "provisioner.provider cannot be empty" ∈ (r.validate).snd) ∧
    (¬ r.Provisioner.Provider = "" →
      ¬ r.Provisioner.Provider ∈ validProvisionerProviders →
      (r.Provisioner.Provider ++ " is not a valid provisioner.provider, options are: [aws]")
        ∈ (r.validate).snd) ∧
    (r.Provisioner.Provider = "aws" →
      (r.Provisioner.AWSOptions.map fun o => o.AccessKeyID).getD "" = "" →
      "provisioner.options.accessKeyID cannot be empty" ∈ (r.validate).snd) ∧
    (r.Provisioner.Provider = "aws" →
      (r.Provisioner.AWSOptions.map fun o => o.SecretAccessKey).getD "" = "" →
      "provisioner.options.secretAccessKey cannot be empty" ∈ (r.validate).snd) := by
  rw [requestValidate_snd]
  unfold ClusterRequest.validateErrs
  rw [provisionerValidate_snd]
  unfold Provisioner.validateErrs
  refine ⟨?_, ?_, ?_, ?_, ?_, ?_, ?_, ?_, ?_, ?_, ?_⟩ <;> intro h
  · simp [h]
  · simp [h]
  · intro h2; simp [h, h2]
  · simp [h]
  · simp [h]
  · simp [h]
  · simp [h]
  · simp [h]
  · intro h2; simp [h, h2]
  · intro h2; simp [h, h2]
  · intro h2; simp [h, h2]

theorem validate_collects_all_violations_witness :
    "name cannot be empty" ∈ (sampleMultiViolationRequest.validate).snd ∧
    "cluster.workerCount must be greater than 0" ∈ (sampleMultiViolationRequest.validate).snd ∧
    "provisioner.options.accessKeyID cannot be empty" ∈ (sampleMultiViolationRequest.validate).snd := by
  refine ⟨?_, ?_, ?_⟩
  · exact (validate_collects_all_violations sampleMultiViolationRequest).1 rfl
  · exact (validate_collects_all_violations sampleMultiViolationRequest).2.2.2.2.2.1 (by decide)
  · exact (validate_collects_all_violations sampleMultiViolationRequest).2.2.2.2.2.2.2.2.2.1
      rfl rfl

/-- C6: create validation enforces the count rules: non-positive etcd,
master, or worker counts fail, a negative ingress count fails, and a request
that passes validation still passes with its ingress count set to zero. -/
theorem validate_count_rules (r : ClusterRequest) :
    (r.EtcdCount ≤ 0 → (r.validate).fst = false) ∧
    (r.MasterCount ≤ 0 → (r.validate).fst = false) ∧
    (r.WorkerCount ≤ 0 → (r.validate).fst = false) ∧
    (r.IngressCount < 0 → (r.validate).fst = false) ∧
    ((r.validate).fst = true →
      (ClusterRequest.validate { r with IngressCount := 0 }).fst = true) := by
  refine ⟨?_, ?_, ?_, ?_, ?_⟩ <;> intro h
  · rw [ClusterRequest.validate, validatorValid_fst_false_iff]
    unfold ClusterRequest.validateErrs
    simp [h, List.append_eq_nil]
  · rw [ClusterRequest.validate, validatorValid_fst_false_iff]
    unfold ClusterRequest.validateErrs
    simp [h, List.append_eq_nil]
  · rw [ClusterRequest.validate, validatorValid_fst_false_iff]
    unfold ClusterRequest.validateErrs
    simp [h, List.append_eq_nil]
  · rw [ClusterRequest.validate, validatorValid_fst_false_iff]
    unfold ClusterRequest.validateErrs
    simp [h, List.append_eq_nil]
  · rw [ClusterRequest.validate, validatorValid_fst_true_iff] at h ⊢
    unfold ClusterRequest.validateErrs at h ⊢
    simp only [List.append_eq_nil] at h ⊢
    obtain ⟨⟨⟨⟨⟨⟨h1, h2⟩, h3⟩, h4⟩, h5⟩, h6⟩, h7⟩ := h
    exact ⟨⟨⟨⟨⟨⟨h1, h2⟩, h3⟩, h4⟩, h5⟩, by simp⟩, h7⟩

theorem validate_count_rules_witness :
    (ClusterRequest.validate { sampleValidRequest with EtcdCount := 0 }).fst = false ∧
    (ClusterRequest.validate { sampleValidRequest with IngressCount := 0 }).fst = true := by
  constructor
  · exact (validate_count_rules { sampleValidRequest with EtcdCount := 0 }).1 (by decide)
  · exact (validate_count_rules sampleValidRequest).2.2.2.2 (by decide)

/-- C1 counterexample: a create request valid in every other way but with
DesiredState destroyed is rejected by the code with an invalid-desiredState
violation, refuting the claimed allowed set of installed and destroyed
(validStates holds only installed). -/
theorem destroyed_desiredState_rejected :
    ClusterRequest.validate { sampleValidRequest with DesiredState := "destroyed" } =
      (false, ["destroyed is not a valid desiredState, options are: [installed]"]) := by
  rfl

/-- C1 amended: the allowed desired-state set for create requests is exactly
validStates, which holds only installed: a request whose DesiredState lies in
validStates passes when every other rule is satisfied, and any non-empty
DesiredState outside validStates fails with an invalid-desiredState
violation. -/
theorem validate_desiredState_allowed_set (r : ClusterRequest) :
    (¬ r.DesiredState = "" → ¬ r.DesiredState ∈ validStates →
      (r.validate).fst = false ∧
      (r.DesiredState ++ " is not a valid desiredState, options are: [installed]")
        ∈ (r.validate).snd) ∧
    (r.DesiredState ∈ validStates → ¬ r.Name = "" → 0 < r.EtcdCount → 0 < r.MasterCount →
      0 < r.WorkerCount → 0 ≤ r.IngressCount → (r.Provisioner.validate).fst = true →
      (r.validate).fst = true) := by
  constructor
  · intro h1 h2
    constructor
    · rw [ClusterRequest.validate, validatorValid_fst_false_iff]
      unfold ClusterRequest.validateErrs
      simp [h1, h2, List.append_eq_nil]
    · rw [requestValidate_snd]
      unfold ClusterRequest.validateErrs
      simp [h1, h2]
  · intro hds hn he hm hw hi hp
    have hinstall : r.DesiredState = "installed" := by
      simpa [validStates] using hds
    have hperrs : r.Provisioner.validateErrs = [] := by
      rwa [Provisioner.validate, validatorValid_fst_true_iff] at hp
    rw [ClusterRequest.validate, validatorValid_fst_true_iff]
    unfold ClusterRequest.validateErrs
    rw [provisionerValidate_snd]
    simp [hn, hinstall, hperrs, not_le.mpr he, not_le.mpr hm, not_le.mpr hw,
      not_lt.mpr hi, validStates]

theorem validate_desiredState_allowed_set_witness :
    (ClusterRequest.validate { sampleValidRequest with DesiredState := "bar" }).fst = false ∧
    (sampleValidRequest.validate).fst = true := by
  constructor
  · exact ((validate_desiredState_allowed_set
      { sampleValidRequest with DesiredState := "bar" }).1 (by decide) (by decide)).1
  · exact (validate_desiredState_allowed_set sampleValidRequest).2 (by decide) (by decide)
      (by decide) (by decide) (by decide) (by decide) rfl

/-- A patch request changing master, worker, and ingress counts and the
credentials while keeping name and etcd count (test case of the update
tests). -/
def samplePatchRequest : ClusterRequest :=
  { sampleValidRequest with
    MasterCount := 3, WorkerCount := 6, IngressCount := 3
    Provisioner :=
      { Provider := "aws"
        AWSOptions := some
          { AWSProvisionerOptions := { Region := "us-east-1" }
            AccessKeyID := "ACCESS_ID_NEW", SecretAccessKey := "SECRET_NEW" } } }

/-- C3: patch validation fails whenever the path id differs from the request
name, the request name differs from the stored cluster name, or the request
etcd count differs from the stored etcd count; when all three equalities
hold, it passes exactly when the create-level rules pass, so changed
master, worker, and ingress counts and changed credentials are accepted. -/
theorem clusterPatch_validate_immutability (cp : clusterPatch) :
    ((¬ cp.id = cp.request.Name ∨ ¬ cp.request.Name = cp.inStore.Plan.Cluster.Name ∨
      ¬ cp.request.EtcdCount = cp.inStore.Plan.Etcd.ExpectedCount) →
      (cp.validate).fst = false) ∧
    (cp.id = cp.request.Name → cp.request.Name = cp.inStore.Plan.Cluster.Name →
      cp.request.EtcdCount = cp.inStore.Plan.Etcd.ExpectedCount →
      (cp.request.validate).fst = true → (cp.validate).fst = true) := by
  constructor
  · intro h
    rw [clusterPatch.validate, validatorValid_fst_false_iff]
    unfold clusterPatch.validateErrs
    rcases h with h | h | h <;> simp [h, List.append_eq_nil]
  · intro h1 h2 h3 h4
    have herrs : cp.request.validateErrs = [] := by
      rwa [ClusterRequest.validate, validatorValid_fst_true_iff] at h4
    rw [clusterPatch.validate, validatorValid_fst_true_iff]
    unfold clusterPatch.validateErrs
    rw [requestValidate_snd]
    simp [herrs, h1, h2, h3]

theorem clusterPatch_validate_immutability_witness :
    (clusterPatch.validate
      { id := "foo", request := samplePatchRequest, inStore := sampleAwsStoreCluster }).fst
        = true ∧
    (clusterPatch.validate
      { id := "bar", request := samplePatchRequest, inStore := sampleAwsStoreCluster }).fst
        = false := by
  constructor
  · exact (clusterPatch_validate_immutability
      { id := "foo", request := samplePatchRequest, inStore := sampleAwsStoreCluster }).2
      rfl rfl rfl (by decide)
  · exact (clusterPatch_validate_immutability
      { id := "bar", request := samplePatchRequest, inStore := sampleAwsStoreCluster }).1
      (Or.inl (by decide))

/-- C7: round trip: a valid create request against a store not holding the
name is accepted, the stored record has CurrentState planned and the
continuation gate raised, and Get of that name returns a response whose
etcd, master, worker, and ingress counts equal the requested counts. -/
theorem create_get_round_trip (req : ClusterRequest) (s : StoreMap)
    (hv : (req.validate).fst = true) (hn : storeGet s req.Name = none) :
    ∃ sc, Clusters.Create req s = (.accepted, storePut s req.Name sc) ∧
      sc.CurrentState = "planned" ∧ sc.CanContinue = true ∧
      Clusters.Get req.Name (Clusters.Create req s).snd = some (buildResponse req.Name sc) ∧
      (buildResponse req.Name sc).EtcdCount = req.EtcdCount ∧
      (buildResponse req.Name sc).MasterCount = req.MasterCount ∧
      (buildResponse req.Name sc).WorkerCount = req.WorkerCount ∧
      (buildResponse req.Name sc).IngressCount = req.IngressCount := by
  have hval : req.validate = (true, (req.validate).snd) := by rw [← hv]
  have hc : ∃ sc, Clusters.Create req s = (.accepted, storePut s req.Name sc) ∧
      buildStoreCluster req = .ok sc := by
    refine ⟨_, ?_, rfl⟩
    unfold Clusters.Create
    rw [hval, hn]
    rfl
  obtain ⟨sc, hc, hb⟩ := hc
  simp only [buildStoreCluster, Except.ok.injEq] at hb
  subst hb
  refine ⟨_, hc, rfl, rfl, ?_, rfl, rfl, rfl, rfl⟩
  rw [hc]
  unfold Clusters.Get
  rw [storeGet_storePut_self]
  rfl

theorem create_get_round_trip_witness :
    ∃ sc, Clusters.Create sampleValidRequest [] =
        (.accepted, storePut [] sampleValidRequest.Name sc) ∧
      sc.CurrentState = "planned" ∧ sc.CanContinue = true ∧
      Clusters.Get sampleValidRequest.Name (Clusters.Create sampleValidRequest []).snd =
        some (buildResponse sampleValidRequest.Name sc) ∧
      (buildResponse sampleValidRequest.Name sc).EtcdCount = sampleValidRequest.EtcdCount ∧
      (buildResponse sampleValidRequest.Name sc).MasterCount = sampleValidRequest.MasterCount ∧
      (buildResponse sampleValidRequest.Name sc).WorkerCount = sampleValidRequest.WorkerCount ∧
      (buildResponse sampleValidRequest.Name sc).IngressCount = sampleValidRequest.IngressCount :=
  create_get_round_trip sampleValidRequest [] (by decide) rfl

end Kismatic
